import Mathlib

/-!
Verification of the bonding-curve factory contract.

This file gives a shallow embedding, in Lean, of the pricing engine
(`src/bonding_curve.rs`), the graduation coordinator
(`src/amm_integration.rs`) and the contract operations (`src/lib.rs`),
and proves or refutes the frozen specification claims about them.

Conventions of the embedding:
* `u128` values are represented as `Nat`; overflow-checked operations test
  the result against `U128_MAX` and fail with `arithmeticOverflow`,
  saturating operations clamp at `U128_MAX` (`saturating_mul`).
* Fallible Rust functions returning `anyhow::Result` become
  `Except CurveError _`; each distinct error message gets a constructor.
* Host-storage cells become fields of `CurveState`; an operation that both
  mutates storage and returns a result becomes a function returning
  `Except CurveError ρ × CurveState`, so that writes performed before a
  failure point are visible in the returned state (as they are in the
  source, where `StoragePointer::set` takes effect immediately).
* Loops (`power_approximation`, the buy-quantity binary search) are
  written with an explicit fuel argument so that the kernel can evaluate
  them; the fuel passed by the wrappers is an upper bound on the number of
  iterations the Rust loop performs, proved sufficient where needed.
-/

namespace BondingCurveFactory

/-- Maximum value of the Rust `u128` type. -/
def U128_MAX : Nat := 2 ^ 128 - 1

/-- Alkane identifier (`AlkaneId { block, tx }`), both components `u128`. -/
structure AlkaneId where
  block : Nat
  tx : Nat
deriving DecidableEq

/-- Base currency selector, `enum BaseToken { BUSD, FrBtc }` in `lib.rs`. -/
inductive BaseToken where
  | BUSD
  | FrBtc
deriving DecidableEq

/-- The fixed alkane id of each base token (`BaseToken::alkane_id`). -/
def BaseToken.alkane_id : BaseToken → AlkaneId
  | .BUSD => ⟨2, 56801⟩
  | .FrBtc => ⟨32, 0⟩

/-- Curve parameters, `struct CurveParams` in `lib.rs`. -/
structure CurveParams where
  base_price : Nat
  growth_rate : Nat
  graduation_threshold : Nat
  base_token : BaseToken
  max_supply : Nat
deriving DecidableEq

/-- Default parameters, the `Default` impl for `CurveParams` in `lib.rs`. -/
def default_curve_params : CurveParams :=
  { base_price := 1000000
    growth_rate := 1500
    graduation_threshold := 10000000000000
    base_token := .BUSD
    max_supply := 1000000000000000 }

/-- Error taxonomy: one constructor per distinct `anyhow!` message reachable
in the embedded functions. -/
inductive CurveError where
  | exceedsMaxSupply
  | insufficientSupply
  | insufficientPayment
  | slippageExceeded
  | alreadyGraduated
  | graduationCriteriaNotMet
  | arithmeticOverflow
  | poolCreationFailed
  | insufficientReserves
  | noBaseTokenInput
  | invalidBaseTokenType
  | invalidLpStrategy
  | creatorNotFound
  | invalidCreatorData
deriving DecidableEq

instance {α : Type} [DecidableEq α] : DecidableEq (Except CurveError α)
  | .error a, .error b =>
    if h : a = b then .isTrue (by rw [h]) else .isFalse (fun hc => by cases hc; exact h rfl)
  | .error _, .ok _ => .isFalse (fun hc => by cases hc)
  | .ok _, .error _ => .isFalse (fun hc => by cases hc)
  | .ok a, .ok b =>
    if h : a = b then .isTrue (by rw [h]) else .isFalse (fun hc => by cases hc; exact h rfl)

/-- Saturating `u128` multiplication (`u128::saturating_mul`). -/
def saturating_mul (a b : Nat) : Nat := min (a * b) U128_MAX

/-- The dampened fractional factor `denominator + (numerator -
denominator) / 10` of `power_approximation` (bonding_curve.rs).  The
inner `numerator - denominator` is an unchecked `u128` subtraction: when
`numerator < denominator` (reachable, since a wrapping growth-factor
addition can leave the numerator below 10000) a release build wraps
modulo `2^128`, modelled here as `(numerator + 2^128 - denominator) %
2^128`; for `denominator ≤ numerator ≤ u128::MAX` this equals the plain
`denominator + (numerator - denominator) / 10`.  The outer addition
cannot overflow (`denominator` is always 10000 at the call site). -/
def fractional_growth (numerator denominator : Nat) : Nat :=
  denominator + (numerator + 2 ^ 128 - denominator) % 2 ^ 128 / 10

/-- Core loop of `CurveCalculator::power_approximation` (bonding_curve.rs).
The Rust loop runs while `exp > 0`: when `exp % 10 == 0` it applies the
full growth factor (`numerator`) and subtracts 10 from `exp`, otherwise it
applies the dampened fractional factor (`fractional_growth`) and
subtracts 1.  Each multiplication is overflow-checked; after each step
the running result is compared against `u128::MAX / 1000` and that cap is
returned if exceeded.  The `fuel` argument bounds the number of
iterations; since every iteration decreases `exp` by at least 1,
`fuel = exp` is always sufficient (the wrapper below passes exactly
that), and when `fuel` is exhausted with `exp = 0` the returned value
agrees with the loop exit. -/
def power_loop (numerator denominator : Nat) : Nat → Nat → Nat → Except CurveError Nat
  | result, _exp, 0 => .ok result
  | result, exp, fuel + 1 =>
    if exp = 0 then .ok result
    else
      let factor := if exp % 10 = 0 then numerator
                    else fractional_growth numerator denominator
      if result * factor ≤ U128_MAX then
        let r := result * factor / denominator
        if U128_MAX / 1000 < r then .ok (U128_MAX / 1000)
        else power_loop numerator denominator r
          (if exp % 10 = 0 then exp - 10 else exp - 1) fuel
      else .error .arithmeticOverflow

/-- `CurveCalculator::power_approximation`: approximates
`base * (numerator / denominator) ^ exponent`; returns `base` at exponent
0, otherwise runs the loop starting from `result = base`.  Fuel `exponent`
is exactly the Rust loop bound. -/
def power_approximation (base numerator exponent denominator : Nat) :
    Except CurveError Nat :=
  if exponent = 0 then .ok base
  else power_loop numerator denominator base exponent exponent

/-- `CurveCalculator::price_at_supply`: `base_price` at supply 0, otherwise
the power approximation of `base_price * ((10000 + growth_rate) / 10000) ^
supply`.  The Rust `10000 + params.growth_rate` is an unchecked `u128`
addition: a release build wraps modulo `2^128` (a debug build would
panic), modelled here as `% 2^128` — so for `growth_rate > u128::MAX -
10000` the growth factor wraps below 10000 and the price DECREASES with
supply; no initialization validation excludes such rates. -/
def price_at_supply (supply : Nat) (p : CurveParams) : Except CurveError Nat :=
  if supply = 0 then .ok p.base_price
  else power_approximation p.base_price ((10000 + p.growth_rate) % 2 ^ 128) supply 10000

/-- `CurveCalculator::calculate_buy_price`: 0 at quantity 0; checked
addition of supply and quantity (overflow of the sum itself is
`arithmeticOverflow`, tested before the max-supply comparison, as in the
source where `checked_add` runs first); `exceedsMaxSupply` when the new
supply exceeds `max_supply`; otherwise the trapezoidal cost
`((price(s) + price(s+q)) / 2) * q` with checked addition and
multiplication. -/
def calculate_buy_price (current_supply tokens_to_buy : Nat) (p : CurveParams) :
    Except CurveError Nat :=
  if tokens_to_buy = 0 then .ok 0
  else if U128_MAX < current_supply + tokens_to_buy then .error .arithmeticOverflow
  else if p.max_supply < current_supply + tokens_to_buy then .error .exceedsMaxSupply
  else
    match price_at_supply current_supply p,
          price_at_supply (current_supply + tokens_to_buy) p with
    | .error e, _ => .error e
    | .ok _, .error e => .error e
    | .ok start_price, .ok end_price =>
      if start_price + end_price ≤ U128_MAX then
        if ((start_price + end_price) / 2) * tokens_to_buy ≤ U128_MAX then
          .ok (((start_price + end_price) / 2) * tokens_to_buy)
        else .error .arithmeticOverflow
      else .error .arithmeticOverflow

/-- `CurveCalculator::calculate_sell_price`: 0 at quantity 0;
`insufficientSupply` when selling more than the current supply; otherwise
the trapezoidal average over `[s - q, s]` with a 1% discount
(`* 99 / 100`), every addition and multiplication overflow-checked. -/
def calculate_sell_price (current_supply tokens_to_sell : Nat) (p : CurveParams) :
    Except CurveError Nat :=
  if tokens_to_sell = 0 then .ok 0
  else if current_supply < tokens_to_sell then .error .insufficientSupply
  else
    match price_at_supply (current_supply - tokens_to_sell) p,
          price_at_supply current_supply p with
    | .error e, _ => .error e
    | .ok _, .error e => .error e
    | .ok start_price, .ok end_price =>
      if start_price + end_price ≤ U128_MAX then
        if ((start_price + end_price) / 2) * 99 ≤ U128_MAX then
          if (((start_price + end_price) / 2) * 99 / 100) * tokens_to_sell ≤ U128_MAX then
            .ok ((((start_price + end_price) / 2) * 99 / 100) * tokens_to_sell)
          else .error .arithmeticOverflow
        else .error .arithmeticOverflow
      else .error .arithmeticOverflow

/-- Value of `price_at_supply(...).unwrap_or(0)` as used by
`check_graduation_criteria`. -/
def price_or_zero (supply : Nat) (p : CurveParams) : Nat :=
  match price_at_supply supply p with
  | .ok v => v
  | .error _ => 0

/-- `CurveCalculator::check_graduation_criteria`: market cap (saturating
product of supply and current price, price errors treated as 0) at least
the graduation threshold, or reserves at least half the threshold. -/
def check_graduation_criteria (current_supply base_reserves : Nat)
    (p : CurveParams) : Bool :=
  let market_cap := saturating_mul current_supply (price_or_zero current_supply p)
  if p.graduation_threshold ≤ market_cap then true
  else if p.graduation_threshold / 2 ≤ base_reserves then true
  else false

/-- Value of `price_at_supply(...).unwrap_or(params.base_price)` as used by
`calculate_pool_ratios`. -/
def price_or_base (supply : Nat) (p : CurveParams) : Nat :=
  match price_at_supply supply p with
  | .ok v => v
  | .error _ => p.base_price

/-- `AMMIntegration::calculate_pool_ratios`: all base reserves become the
base leg; the token leg is `base_liquidity * 10^9 / current_price`
(saturating multiplication, then division), capped at 50% of the current
`token_supply` (`token_supply * 50 / 100`, saturating multiplication).
The Rust `saturating_div` panics on a zero price (only possible when
`base_price = 0`); Nat division returns 0 there instead. -/
def calculate_pool_ratios (token_supply base_reserves : Nat) (p : CurveParams) :
    Except CurveError (Nat × Nat) :=
  let base_liquidity := base_reserves
  let current_price := price_or_base token_supply p
  let token_liquidity := saturating_mul base_liquidity 1000000000 / current_price
  let max_token_liquidity := saturating_mul token_supply 50 / 100
  .ok (min token_liquidity max_token_liquidity, base_liquidity)

/-- Oyl factory proxy id, constant `OYL_FACTORY_PROXY` in
`amm_integration.rs`. -/
def OYL_FACTORY_PROXY : AlkaneId := ⟨4, 65522⟩

/-- The `(id.block as u128) << 64 | (id.tx as u128)` hash used by
`generate_pool_address` (left shift of a `u128` by 64 keeps the low 128
bits; the bitwise or is `Nat.lor`). -/
def id_hash (a : AlkaneId) : Nat := Nat.lor (a.block * 2 ^ 64 % 2 ^ 128) a.tx

/-- `AMMIntegration::generate_pool_address`: wrapping sum of the three id
hashes, then `block = (combined >> 64) % 1000000`,
`tx = combined % 1000000`. -/
def generate_pool_address (factory token_a token_b : AlkaneId) : AlkaneId :=
  let combined := (id_hash factory + id_hash token_a + id_hash token_b) % 2 ^ 128
  ⟨combined / 2 ^ 64 % 1000000, combined % 1000000⟩

/-- `AMMIntegration::verify_pool_exists`: both components non-zero. -/
def verify_pool_exists (pool : AlkaneId) : Bool :=
  decide (0 < pool.block) && decide (0 < pool.tx)

/-- The product fed to the LP square root by
`AMMIntegration::calculate_lp_tokens`: both amounts are cast to `u64`
(truncation modulo `2^64`) and multiplied with `u64::saturating_mul`. -/
def lp_product (token_amount base_amount : Nat) : Nat :=
  min ((token_amount % 2 ^ 64) * (base_amount % 2 ^ 64)) (2 ^ 64 - 1)

/-- `AMMIntegration::calculate_lp_tokens`.  The source computes
`(product as f64).sqrt() as u128`; the correctly-rounded IEEE square root
truncated to an integer is modelled as the integer square root `Nat.sqrt`
(they agree except within one unit near perfect squares above `2^52`,
where double rounding can round up; every concrete evaluation used in a
theorem below is at a point where the two agree exactly). -/
def calculate_lp_tokens (token_amount base_amount : Nat) : Nat :=
  Nat.sqrt (lp_product token_amount base_amount)

/-- LP token distribution strategies, `enum LPDistributionStrategy`. -/
inductive LPDistributionStrategy where
  | BurnAll
  | CommunityRewards
  | CreatorAllocation
  | DAOGovernance
deriving DecidableEq

/-- Ledger of where the minted LP tokens went.  The source's
`burn_lp_tokens` / transfer helpers only log their effect; this record is
the shallow embedding of those effects. -/
structure LPOutcome where
  burned : Nat
  holders_paid : Nat
  creator_paid : Nat
  dao_paid : Nat
deriving DecidableEq

/-- `AMMIntegration::get_top_holders` is a placeholder that always returns
the empty list. -/
def get_top_holders (_count : Nat) : Except CurveError (List AlkaneId) := .ok []

/-- `AMMIntegration::distribute_to_top_holders`: burns the amount when the
holder set is empty, otherwise pays `amount / n` to each of the `n`
holders (equal split). -/
def distribute_to_top_holders (amount : Nat) : Except CurveError LPOutcome :=
  match get_top_holders 10 with
  | .error e => .error e
  | .ok top_holders =>
    if top_holders.isEmpty then
      .ok { burned := amount, holders_paid := 0, creator_paid := 0, dao_paid := 0 }
    else
      .ok { burned := 0,
            holders_paid := amount / top_holders.length * top_holders.length,
            creator_paid := 0, dao_paid := 0 }

/-- Contract storage cells touched by the embedded operations, one field
per `StoragePointer` keyword.  `lp_strategy_init` is the `/lp_strategy`
cell written by initialization; `amm_lp_strategy` is the distinct
`/amm/lp_strategy` cell read by graduation. -/
structure CurveState where
  params_stored : Option CurveParams
  total_supply : Nat
  base_reserves : Nat
  token_reserves : Nat
  graduated : Bool
  pool_address : Option AlkaneId
  graduation_block : Option Nat
  graduation_timestamp : Option Nat
  lp_strategy_init : Option Nat
  amm_lp_strategy : Option Nat
  creator : Option AlkaneId
  factory_id : Option AlkaneId
  name_p1 : Nat
  name_p2 : Nat
  symbol : Nat
deriving DecidableEq

/-- `CurveCalculator::get_curve_params`: the stored parameters, or the
default parameters when the cell is empty. -/
def get_curve_params (st : CurveState) : CurveParams :=
  st.params_stored.getD default_curve_params

/-- `AMMIntegration::get_lp_distribution_strategy`: decodes the
`/amm/lp_strategy` byte (0 on an empty cell), every unknown value mapping
to `BurnAll`. -/
def get_lp_distribution_strategy (st : CurveState) : LPDistributionStrategy :=
  match st.amm_lp_strategy.getD 0 with
  | 1 => .CommunityRewards
  | 2 => .CreatorAllocation
  | 3 => .DAOGovernance
  | _ => .BurnAll

/-- `AMMIntegration::get_token_creator`.  When the `/token/creator` cell
is empty or short the source fails with `Creator not found`
(`creatorNotFound`).  When a creator IS stored, the source runs
`u128::from_le_bytes(data[0..8].try_into()...)`: an 8-byte slice
converted into the 16-byte array `from_le_bytes` requires, so `try_into`
always fails and the function fails with `Invalid block`
(`invalidCreatorData`).  The lookup can therefore never succeed; the
`.ok` branches of its callers are dead code. -/
def get_token_creator (st : CurveState) : Except CurveError AlkaneId :=
  match st.creator with
  | some _ => .error .invalidCreatorData
  | none => .error .creatorNotFound

/-- `AMMIntegration::get_dao_address`: a fixed placeholder address. -/
def get_dao_address : Except CurveError AlkaneId := .ok ⟨100, 1⟩

/-- `AMMIntegration::distribute_lp_tokens`: computes the LP total from the
two liquidity legs and applies the strategy split — BurnAll burns 100%;
CommunityRewards burns 80% (saturating `* 80 / 100`) and routes the
remainder through `distribute_to_top_holders`; CreatorAllocation burns
90% and then attempts to pay the remainder to the creator, which always
fails because `get_token_creator` can never succeed (its `.ok` branch
below is dead code, kept to mirror the source's structure);
DAOGovernance burns 80% and pays the remainder to the DAO address. -/
def distribute_lp_tokens (st : CurveState) (token_liquidity base_liquidity : Nat)
    (strategy : LPDistributionStrategy) : Except CurveError LPOutcome :=
  let total_lp_tokens := calculate_lp_tokens token_liquidity base_liquidity
  match strategy with
  | .BurnAll =>
    .ok { burned := total_lp_tokens, holders_paid := 0, creator_paid := 0, dao_paid := 0 }
  | .CommunityRewards =>
    let burn_amount := saturating_mul total_lp_tokens 80 / 100
    let distribute_amount := total_lp_tokens - burn_amount
    match distribute_to_top_holders distribute_amount with
    | .error e => .error e
    | .ok o =>
      .ok { burned := burn_amount + o.burned, holders_paid := o.holders_paid,
            creator_paid := o.creator_paid, dao_paid := o.dao_paid }
  | .CreatorAllocation =>
    let burn_amount := saturating_mul total_lp_tokens 90 / 100
    let creator_amount := total_lp_tokens - burn_amount
    match get_token_creator st with
    | .error e => .error e
    | .ok _ =>
      .ok { burned := burn_amount, holders_paid := 0,
            creator_paid := creator_amount, dao_paid := 0 }
  | .DAOGovernance =>
    let burn_amount := saturating_mul total_lp_tokens 80 / 100
    let dao_amount := total_lp_tokens - burn_amount
    match get_dao_address with
    | .error e => .error e
    | .ok _ =>
      .ok { burned := burn_amount, holders_paid := 0,
            creator_paid := 0, dao_paid := dao_amount }

/-- `AMMIntegration::graduate_to_amm`: guard on the graduated flag, then
on the criteria; compute pool ratios; create and verify the pool
(`create_oyl_pool_atomic`, whose simulated factory call derives a
deterministic pool id and whose liquidity step always succeeds); persist
the graduated flag, pool address and graduation block/timestamp; then
look up the strategy from `/amm/lp_strategy` and distribute LP tokens —
a distribution failure is returned to the caller with the persisted
writes already in place. -/
def graduate_to_amm (st : CurveState) (myself : AlkaneId) (token_supply : Nat) :
    Except CurveError AlkaneId × CurveState :=
  if st.graduated then (.error .alreadyGraduated, st)
  else
    let params := get_curve_params st
    let base_reserves := st.base_reserves
    if ¬ check_graduation_criteria token_supply base_reserves params then
      (.error .graduationCriteriaNotMet, st)
    else
      match calculate_pool_ratios token_supply base_reserves params with
      | .error e => (.error e, st)
      | .ok (token_liquidity, base_liquidity) =>
        let pool_address :=
          generate_pool_address OYL_FACTORY_PROXY myself params.base_token.alkane_id
        if ¬ verify_pool_exists pool_address then (.error .poolCreationFailed, st)
        else
          let st1 := { st with graduated := true,
                               pool_address := some pool_address,
                               graduation_block := some 0,
                               graduation_timestamp := some 0 }
          let strategy := get_lp_distribution_strategy st1
          match distribute_lp_tokens st1 token_liquidity base_liquidity strategy with
          | .error e => (.error e, st1)
          | .ok _ => (.ok pool_address, st1)

/-- An incoming asset transfer (`AlkaneTransfer { id, value }`). -/
structure AlkaneTransfer where
  id : AlkaneId
  value : Nat
deriving DecidableEq

/-- Binary-search loop of `BondingCurve::calculate_tokens_for_base_amount`:
searches `[low, high]` for the largest quantity whose buy cost does not
exceed `base_amount`, propagating any error from the cost oracle.  The
Rust loop terminates after at most `high - low + 2` iterations (the else
branch with `mid = 0` is unreachable because a zero quantity always costs
0), so the fuel passed by the wrapper is sufficient; `mid - 1` is the
source's `saturating_sub`. -/
def buy_search (current_supply base_amount : Nat) (p : CurveParams) :
    Nat → Nat → Nat → Nat → Except CurveError Nat
  | _low, _high, best, 0 => .ok best
  | low, high, best, fuel + 1 =>
    if high < low then .ok best
    else
      let mid := (low + high) / 2
      match calculate_buy_price current_supply mid p with
      | .error e => .error e
      | .ok cost =>
        if cost ≤ base_amount then
          buy_search current_supply base_amount p (mid + 1) high mid fuel
        else
          buy_search current_supply base_amount p low (mid - 1) best fuel

/-- `BondingCurve::calculate_tokens_for_base_amount`: binary search over
`[0, max_supply - current_supply]` (saturating subtraction), failing with
`insufficientPayment` when no positive quantity was affordable. -/
def calculate_tokens_for_base_amount (current_supply base_amount : Nat)
    (p : CurveParams) : Except CurveError Nat :=
  let high := p.max_supply - current_supply
  match buy_search current_supply base_amount p 0 high 0 (high + 2) with
  | .error e => .error e
  | .ok best_tokens =>
    if best_tokens = 0 then .error .insufficientPayment else .ok best_tokens

/-- `BondingCurve::buy_tokens`: graduated guard; find the base-token
transfer among the incoming alkanes; invert the payment into a quantity;
slippage guard; mint (overflow-checked total supply increase); add the
payment to the reserves; then, when the post-trade state meets the
graduation criteria, invoke graduation and discard its result (`let _ =
...`), so the buy succeeds regardless of the graduation outcome.  The
reserve addition is unchecked `u128` addition in the source, modelled as
plain `Nat` addition. -/
def buy_tokens (st : CurveState) (myself : AlkaneId)
    (incoming : List AlkaneTransfer) (min_tokens_out : Nat) :
    Except CurveError Nat × CurveState :=
  if st.graduated then (.error .alreadyGraduated, st)
  else
    let params := get_curve_params st
    let current_supply := st.total_supply
    match incoming.find? (fun t => decide (t.id = params.base_token.alkane_id)) with
    | none => (.error .noBaseTokenInput, st)
    | some base_input =>
      let base_amount := base_input.value
      match calculate_tokens_for_base_amount current_supply base_amount params with
      | .error e => (.error e, st)
      | .ok tokens_to_mint =>
        if tokens_to_mint < min_tokens_out then (.error .slippageExceeded, st)
        else if U128_MAX < current_supply + tokens_to_mint then
          (.error .arithmeticOverflow, st)
        else
          let current_reserves := st.base_reserves
          let st2 := { st with total_supply := current_supply + tokens_to_mint,
                               base_reserves := current_reserves + base_amount }
          let new_supply := current_supply + tokens_to_mint
          if check_graduation_criteria new_supply (current_reserves + base_amount) params then
            (.ok tokens_to_mint, (graduate_to_amm st2 myself new_supply).2)
          else
            (.ok tokens_to_mint, st2)

/-- `BondingCurve::sell_tokens`: graduated guard; compute the sell payout;
slippage guard; reserve-sufficiency guard; then burn the tokens and pay
out from the reserves. -/
def sell_tokens (st : CurveState) (token_amount min_base_out : Nat) :
    Except CurveError Nat × CurveState :=
  if st.graduated then (.error .alreadyGraduated, st)
  else
    let params := get_curve_params st
    let current_supply := st.total_supply
    match calculate_sell_price current_supply token_amount params with
    | .error e => (.error e, st)
    | .ok base_payout =>
      if base_payout < min_base_out then (.error .slippageExceeded, st)
      else
        let current_reserves := st.base_reserves
        if current_reserves < base_payout then (.error .insufficientReserves, st)
        else
          (.ok base_payout, { st with total_supply := current_supply - token_amount,
                                      base_reserves := current_reserves - base_payout })

/-- Arguments of the Initialize operation (opcode 200 in `lib.rs`). -/
structure InitArgs where
  name_part1 : Nat
  name_part2 : Nat
  symbol : Nat
  base_price : Nat
  growth_rate : Nat
  graduation_threshold : Nat
  base_token_type : Nat
  max_supply : Nat
  lp_distribution_strategy : Nat
deriving DecidableEq

/-- `BondingCurve::initialize` (this name avoids a reserved keyword of the
verification toolchain): validates the base-token selector and the
strategy selector, then unconditionally stores the curve parameters and
metadata, the `/lp_strategy` byte, zeroed reserves, and the creator
(`context.myself`).  There is no already-initialized guard anywhere in
the function. -/
def init_curve (st : CurveState) (myself : AlkaneId) (a : InitArgs) :
    Except CurveError Unit × CurveState :=
  match a.base_token_type with
  | 0 =>
    if 3 < a.lp_distribution_strategy then (.error .invalidLpStrategy, st)
    else
      (.ok (), { st with
        params_stored := some { base_price := a.base_price, growth_rate := a.growth_rate,
                                graduation_threshold := a.graduation_threshold,
                                base_token := .BUSD, max_supply := a.max_supply }
        name_p1 := a.name_part1, name_p2 := a.name_part2, symbol := a.symbol
        lp_strategy_init := some a.lp_distribution_strategy
        base_reserves := 0, token_reserves := 0
        creator := some myself })
  | 1 =>
    if 3 < a.lp_distribution_strategy then (.error .invalidLpStrategy, st)
    else
      (.ok (), { st with
        params_stored := some { base_price := a.base_price, growth_rate := a.growth_rate,
                                graduation_threshold := a.graduation_threshold,
                                base_token := .FrBtc, max_supply := a.max_supply }
        name_p1 := a.name_part1, name_p2 := a.name_part2, symbol := a.symbol
        lp_strategy_init := some a.lp_distribution_strategy
        base_reserves := 0, token_reserves := 0
        creator := some myself })
  | _ => (.error .invalidBaseTokenType, st)

/-- The pool id a graduation of this curve would create: shorthand for the
`generate_pool_address` call inside `graduate_to_amm`. -/
def graduation_pool (st : CurveState) (myself : AlkaneId) : AlkaneId :=
  generate_pool_address OYL_FACTORY_PROXY myself (get_curve_params st).base_token.alkane_id

/-- The state `graduate_to_amm` persists right after pool creation
succeeds (graduated flag, pool handle, graduation block and timestamp):
shorthand for the embedded `st1`. -/
def persisted_state (st : CurveState) (myself : AlkaneId) : CurveState :=
  { st with graduated := true, pool_address := some (graduation_pool st myself),
            graduation_block := some 0, graduation_timestamp := some 0 }

/-! Concrete parameter sets and states used by the counterexamples and
witnesses below. -/

/-- Scenario A parameters from the spec (base 1000000, 150 bps, max 10^9). -/
def params_scenarioA : CurveParams :=
  { base_price := 1000000, growth_rate := 150, graduation_threshold := 10000000000000,
    base_token := .BUSD, max_supply := 1000000000 }

/-- Default parameters with a 10000 bps (100% per token) growth rate. -/
def params_big_growth : CurveParams :=
  { default_curve_params with growth_rate := 10000 }

/-- Default parameters with a growth rate so large that the unchecked
`10000 + growth_rate` factor addition wraps modulo `2^128` down to 4999 —
below the 10000 denominator, so each chunk factor SHRINKS the price. -/
def params_wrap_growth : CurveParams :=
  { default_curve_params with growth_rate := 2 ^ 128 - 5001 }

/-- Parameters whose spot price is exactly 10^9 (so the pool ratio
computation is easy to read): base 10^9, zero growth, max supply 1000. -/
def params_pool_demo : CurveParams :=
  { base_price := 1000000000, growth_rate := 0, graduation_threshold := 0,
    base_token := .BUSD, max_supply := 1000 }

/-- Unit-price parameters (base 1, zero growth, graduation threshold 6,
max supply 100): every token costs exactly 1 and the reserve criterion is
`reserves ≥ 3`. -/
def params_unit : CurveParams :=
  { base_price := 1, growth_rate := 0, graduation_threshold := 6,
    base_token := .BUSD, max_supply := 100 }

/-- A state with no stored cells at all (fresh storage). -/
def empty_state : CurveState :=
  { params_stored := none, total_supply := 0, base_reserves := 0, token_reserves := 0,
    graduated := false, pool_address := none, graduation_block := none,
    graduation_timestamp := none, lp_strategy_init := none, amm_lp_strategy := none,
    creator := none, factory_id := none, name_p1 := 0, name_p2 := 0, symbol := 0 }

/-- A curve holding 5 reserves under `params_unit`, with LP strategy byte 2
(CreatorAllocation) in the `/amm/lp_strategy` cell and no stored creator:
graduation passes the criteria and the pool steps, then fails during LP
distribution. -/
def state_creatorless : CurveState :=
  { empty_state with params_stored := some params_unit, base_reserves := 5,
                     amm_lp_strategy := some 2 }

/-- The same curve before any purchase (zero reserves). -/
def state_fresh_buy : CurveState :=
  { state_creatorless with base_reserves := 0 }

/-- An already-graduated curve state. -/
def state_graduated : CurveState := { empty_state with graduated := true }

/-- An ungraduated curve under `params_unit` with no supply and no
reserves: neither graduation criterion holds. -/
def state_nocrit : CurveState := { empty_state with params_stored := some params_unit }

/-- First initialization argument set (BUSD, strategy 0). -/
def init_args_a : InitArgs :=
  { name_part1 := 1, name_part2 := 2, symbol := 3, base_price := 1000000,
    growth_rate := 150, graduation_threshold := 1000, base_token_type := 0,
    max_supply := 1000000, lp_distribution_strategy := 0 }

/-- Second initialization argument set with a different base price and
growth rate. -/
def init_args_b : InitArgs :=
  { init_args_a with base_price := 2000000, growth_rate := 300 }

/-! Helper lemmas about the power-approximation loop. -/

/-- The loop immediately exits on a zero exponent, whatever the fuel. -/
theorem power_loop_zero_exp (n d r : Nat) : ∀ fuel, power_loop n d r 0 fuel = .ok r := by
  intro fuel
  cases fuel <;> simp [power_loop]

/-- Characteristic integer-sqrt equation used to pin down `Nat.sqrt`
values (the kernel cannot evaluate `Nat.sqrt` directly). -/
theorem sqrt_eq_of (x k : Nat) (h1 : k * k ≤ x) (h2 : x < (k + 1) * (k + 1)) :
    Nat.sqrt x = k :=
  Nat.le_antisymm (Nat.lt_succ_iff.mp (Nat.sqrt_lt.mpr h2)) (Nat.le_sqrt.mpr h1)

/-- One chunk step of the loop (exponent a positive multiple of 10): the
cap comparison can never fire for denominator 10000, since the step result
is at most `U128_MAX / 10000 < U128_MAX / 1000`. -/
theorem power_loop_chunk (n r exp fuel : Nat) (hexp : exp ≠ 0) (h10 : exp % 10 = 0) :
    power_loop n 10000 r exp (fuel + 1) =
      if r * n ≤ U128_MAX then power_loop n 10000 (r * n / 10000) (exp - 10) fuel
      else .error .arithmeticOverflow := by
  simp only [power_loop, if_neg hexp, h10, if_pos]
  split
  case isTrue h =>
    have hb : r * n / 10000 ≤ U128_MAX / 10000 := Nat.div_le_div_right h
    have hlt : U128_MAX / 10000 ≤ U128_MAX / 1000 :=
      Nat.div_le_div_left (by norm_num) (by norm_num)
    rw [if_neg (by omega)]
  case isFalse h => rfl

/-- Every fractional factor is at least the denominator: it is the
denominator plus a (possibly wrapped) non-negative increment. -/
theorem fractional_growth_ge (numerator denominator : Nat) :
    denominator ≤ fractional_growth numerator denominator :=
  Nat.le_add_right _ _

/-- One fractional step of the loop (exponent not a multiple of 10). -/
theorem power_loop_frac (n r exp fuel : Nat) (hexp : exp ≠ 0) (h10 : exp % 10 ≠ 0) :
    power_loop n 10000 r exp (fuel + 1) =
      if r * fractional_growth n 10000 ≤ U128_MAX then
        power_loop n 10000 (r * fractional_growth n 10000 / 10000) (exp - 1) fuel
      else .error .arithmeticOverflow := by
  simp only [power_loop, if_neg hexp, if_neg h10]
  split
  case isTrue h =>
    have hb : r * fractional_growth n 10000 / 10000 ≤ U128_MAX / 10000 :=
      Nat.div_le_div_right h
    have hlt : U128_MAX / 10000 ≤ U128_MAX / 1000 :=
      Nat.div_le_div_left (by norm_num) (by norm_num)
    rw [if_neg (by omega)]
  case isFalse h => rfl

/-- The loop only ever fails with `arithmeticOverflow`. -/
theorem power_loop_err (n d : Nat) :
    ∀ fuel r exp e, power_loop n d r exp fuel = .error e → e = .arithmeticOverflow := by
  intro fuel
  induction fuel with
  | zero => intro r exp e h; simp [power_loop] at h
  | succ k ih =>
    intro r exp e h
    by_cases hexp : exp = 0
    · simp [power_loop, hexp] at h
    · simp only [power_loop, if_neg hexp] at h
      split at h
      all_goals split at h
      case neg.isTrue.isTrue =>
        split at h
        · exact absurd h (by simp)
        · exact ih _ _ _ h
      case neg.isTrue.isFalse =>
        injection h with h2
        exact h2.symm
      case neg.isFalse.isTrue =>
        split at h
        · exact absurd h (by simp)
        · exact ih _ _ _ h
      case neg.isFalse.isFalse =>
        injection h with h2
        exact h2.symm

/-- Multiplying by a factor of at least 10000 and dividing by 10000 never
decreases a natural number. -/
theorem le_mul_div_10000 (x f : Nat) (hf : 10000 ≤ f) : x ≤ x * f / 10000 := by
  have h1 : x * 10000 ≤ x * f := Nat.mul_le_mul_left x hf
  have h2 : x * 10000 / 10000 ≤ x * f / 10000 := Nat.div_le_div_right h1
  simpa using h2

/-- The loop never decreases its accumulator (every factor is at least the
denominator when the numerator is, as it always is at the call site). -/
theorem power_loop_ge (n : Nat) (hn : 10000 ≤ n) :
    ∀ fuel r exp v, power_loop n 10000 r exp fuel = .ok v → r ≤ v := by
  intro fuel
  induction fuel with
  | zero =>
    intro r exp v h
    simp [power_loop] at h
    omega
  | succ k ih =>
    intro r exp v h
    by_cases hexp : exp = 0
    · simp [power_loop, hexp] at h
      omega
    · by_cases h10 : exp % 10 = 0
      · rw [power_loop_chunk n r exp k hexp h10] at h
        split at h
        next hov => exact le_trans (le_mul_div_10000 r n hn) (ih _ _ _ h)
        next => exact absurd h (by simp)
      · rw [power_loop_frac n r exp k hexp h10] at h
        split at h
        next hov =>
          exact le_trans (le_mul_div_10000 r _ (fractional_growth_ge n 10000)) (ih _ _ _ h)
        next => exact absurd h (by simp)

/-- With adequate fuel and a positive exponent, every successful loop
output is at most `U128_MAX / 10000` — strictly below the `U128_MAX /
1000` cap, so the clamp branch can never have fired. -/
theorem power_loop_bound (n : Nat) :
    ∀ fuel r exp v, exp ≠ 0 → exp ≤ fuel → power_loop n 10000 r exp fuel = .ok v →
      v ≤ U128_MAX / 10000 := by
  intro fuel
  induction fuel with
  | zero =>
    intro r exp v hexp hle _
    omega
  | succ k ih =>
    intro r exp v hexp hle h
    by_cases h10 : exp % 10 = 0
    · rw [power_loop_chunk n r exp k hexp h10] at h
      split at h
      next hov =>
        have hr2 : r * n / 10000 ≤ U128_MAX / 10000 := Nat.div_le_div_right hov
        by_cases he2 : exp - 10 = 0
        · rw [he2, power_loop_zero_exp] at h
          injection h with h2
          omega
        · exact ih _ _ _ he2 (by omega) h
      next => exact absurd h (by simp)
    · rw [power_loop_frac n r exp k hexp h10] at h
      split at h
      next hov =>
        have hr2 : r * fractional_growth n 10000 / 10000 ≤ U128_MAX / 10000 :=
          Nat.div_le_div_right hov
        by_cases he2 : exp - 1 = 0
        · rw [he2, power_loop_zero_exp] at h
          injection h with h2
          omega
        · exact ih _ _ _ he2 (by omega) h
      next => exact absurd h (by simp)

/-- Componentwise monotonicity of the loop: if one run starts from a
smaller accumulator, with no more whole decades (`exp / 10`) and no more
remainder units (`exp % 10`) than another, and the larger run succeeds,
then the smaller run succeeds with a result at most as large.  (Full
monotonicity in the exponent is false: nine fractional factors can exceed
one chunk factor for large growth rates.) -/
theorem power_loop_mono (n : Nat) (hn : 10000 ≤ n) :
    ∀ fuel2 fuel1 r1 r2 exp1 exp2 v2,
      exp1 / 10 ≤ exp2 / 10 → exp1 % 10 ≤ exp2 % 10 → r1 ≤ r2 →
      exp1 ≤ fuel1 → exp2 ≤ fuel2 →
      power_loop n 10000 r2 exp2 fuel2 = .ok v2 →
      ∃ v1, power_loop n 10000 r1 exp1 fuel1 = .ok v1 ∧ v1 ≤ v2 := by
  intro fuel2
  induction fuel2 with
  | zero =>
    intro fuel1 r1 r2 exp1 exp2 v2 hdiv hmod hr hf1 hf2 h
    have he2 : exp2 = 0 := by omega
    subst he2
    have he1 : exp1 = 0 := by omega
    subst he1
    rw [power_loop_zero_exp] at h
    injection h with h2
    exact ⟨r1, power_loop_zero_exp n 10000 r1 fuel1, by omega⟩
  | succ k ih =>
    intro fuel1 r1 r2 exp1 exp2 v2 hdiv hmod hr hf1 hf2 h
    by_cases hexp2 : exp2 = 0
    · subst hexp2
      have he1 : exp1 = 0 := by omega
      subst he1
      rw [power_loop_zero_exp] at h
      injection h with h2
      exact ⟨r1, power_loop_zero_exp n 10000 r1 fuel1, by omega⟩
    · by_cases h10 : exp2 % 10 = 0
      · rw [power_loop_chunk n r2 exp2 k hexp2 h10] at h
        split at h
        next hov2 =>
          by_cases heq : exp1 / 10 = exp2 / 10
          · have he : exp1 = exp2 := by omega
            subst he
            cases fuel1 with
            | zero => omega
            | succ k1 =>
              rw [power_loop_chunk n r1 exp1 k1 hexp2 h10]
              have hov1 : r1 * n ≤ U128_MAX :=
                le_trans (Nat.mul_le_mul_right n hr) hov2
              rw [if_pos hov1]
              exact ih k1 (r1 * n / 10000) (r2 * n / 10000) (exp1 - 10) (exp1 - 10) v2
                le_rfl le_rfl (Nat.div_le_div_right (Nat.mul_le_mul_right n hr))
                (by omega) (by omega) h
          · exact ih fuel1 r1 (r2 * n / 10000) exp1 (exp2 - 10) v2 (by omega) (by omega)
              (le_trans hr (le_mul_div_10000 r2 n hn)) hf1 (by omega) h
        next => exact absurd h (by simp)
      · rw [power_loop_frac n r2 exp2 k hexp2 h10] at h
        split at h
        next hov2 =>
          by_cases heqm : exp1 % 10 = exp2 % 10
          · have hexp1 : exp1 ≠ 0 := by omega
            cases fuel1 with
            | zero => omega
            | succ k1 =>
              rw [power_loop_frac n r1 exp1 k1 hexp1 (by omega)]
              have hov1 : r1 * fractional_growth n 10000 ≤ U128_MAX :=
                le_trans (Nat.mul_le_mul_right _ hr) hov2
              rw [if_pos hov1]
              exact ih k1 _ _ (exp1 - 1) (exp2 - 1) v2 (by omega) (by omega)
                (Nat.div_le_div_right (Nat.mul_le_mul_right _ hr)) (by omega) (by omega) h
          · exact ih fuel1 r1 _ exp1 (exp2 - 1) v2 (by omega) (by omega)
              (le_trans hr (le_mul_div_10000 r2 _ (fractional_growth_ge n 10000))) hf1
              (by omega) h
        next => exact absurd h (by simp)

/-- The spot price can only fail with `arithmeticOverflow`. -/
theorem price_at_supply_err (s : Nat) (p : CurveParams) (e : CurveError)
    (h : price_at_supply s p = .error e) : e = .arithmeticOverflow := by
  by_cases hs : s = 0
  · simp [price_at_supply, hs] at h
  · simp only [price_at_supply, if_neg hs, power_approximation] at h
    exact power_loop_err _ _ _ _ _ _ h

/-- Componentwise price monotonicity: fewer whole decades and a smaller
remainder give a price at most as large (and the smaller computation
succeeds whenever the larger one does).  This needs the growth factor
addition not to wrap (`growth_rate ≤ u128::MAX - 10000`): a wrapped
factor drops below 10000 and shrinks the price instead. -/
theorem price_at_supply_mono (p : CurveParams) (s1 s2 v2 : Nat)
    (hg : p.growth_rate ≤ U128_MAX - 10000)
    (hdiv : s1 / 10 ≤ s2 / 10) (hmod : s1 % 10 ≤ s2 % 10)
    (h : price_at_supply s2 p = .ok v2) :
    ∃ v1, price_at_supply s1 p = .ok v1 ∧ v1 ≤ v2 := by
  have hgu : p.growth_rate ≤ 2 ^ 128 - 10001 := by
    have : U128_MAX = 2 ^ 128 - 1 := rfl
    omega
  have hwrap : (10000 + p.growth_rate) % 2 ^ 128 = 10000 + p.growth_rate :=
    Nat.mod_eq_of_lt (by omega)
  have hn : 10000 ≤ (10000 + p.growth_rate) % 2 ^ 128 := by
    rw [hwrap]
    exact Nat.le_add_right _ _
  by_cases hs1 : s1 = 0
  · subst hs1
    refine ⟨p.base_price, rfl, ?_⟩
    by_cases hs2 : s2 = 0
    · subst hs2
      simp [price_at_supply] at h
      omega
    · simp only [price_at_supply, if_neg hs2, power_approximation, if_neg hs2] at h
      exact power_loop_ge _ hn _ _ _ _ h
  · have hs2 : s2 ≠ 0 := by omega
    simp only [price_at_supply, if_neg hs2, power_approximation, if_neg hs2] at h
    obtain ⟨v1, hv1, hle⟩ :=
      power_loop_mono ((10000 + p.growth_rate) % 2 ^ 128) hn s2 s1 p.base_price
        p.base_price s1 s2 v2 hdiv hmod le_rfl le_rfl le_rfl h
    refine ⟨v1, ?_, hle⟩
    simp only [price_at_supply, if_neg hs1, power_approximation, if_neg hs1]
    exact hv1

/-- At positive supply every successful price stays at or below
`U128_MAX / 10000`, strictly below the `U128_MAX / 1000` cap the source
code tries to clamp at — the clamp branch is unreachable. -/
theorem price_at_supply_bound (p : CurveParams) (s v : Nat) (hs : s ≠ 0)
    (h : price_at_supply s p = .ok v) : v ≤ U128_MAX / 10000 := by
  simp only [price_at_supply, if_neg hs, power_approximation, if_neg hs] at h
  exact power_loop_bound _ _ _ _ _ hs le_rfl h

/-- Claim C8 (amended): `price_at_supply(0) = base_price`; for growth
rates that do not overflow the unchecked `u128` factor addition
(`growth_rate ≤ u128::MAX - 10000`) the price is monotone componentwise
in (whole decades `s / 10`, remainder units `s % 10`) — in particular
within a decade and across whole decades — but full monotonicity in the
supply is false even there (see the counterexample), and for wrapping
growth rates the factor falls below 10000 and the price drops below the
base price; the `U128_MAX / 1000` clamp is unreachable for EVERY
parameter set: every successful price at positive supply is at most
`U128_MAX / 10000`, strictly below the cap, so no supply ever returns
the clamp value, vacuously satisfying the claimed
once-clamped-stays-capped behaviour. -/
theorem claim8_price_monotone_amended : ∀ (p : CurveParams) (s1 s2 v2 : Nat),
    (price_at_supply 0 p = .ok p.base_price) ∧
    (p.growth_rate ≤ U128_MAX - 10000 →
      s1 / 10 ≤ s2 / 10 → s1 % 10 ≤ s2 % 10 → price_at_supply s2 p = .ok v2 →
      ∃ v1, price_at_supply s1 p = .ok v1 ∧ v1 ≤ v2) ∧
    (s2 ≠ 0 → price_at_supply s2 p = .ok v2 →
      v2 ≤ U128_MAX / 10000 ∧ v2 < U128_MAX / 1000) := by
  intro p s1 s2 v2
  refine ⟨rfl, fun hg hdiv hmod h => price_at_supply_mono p s1 s2 v2 hg hdiv hmod h, ?_⟩
  intro hs2 h
  have hb := price_at_supply_bound p s2 v2 hs2 h
  have : U128_MAX / 10000 < U128_MAX / 1000 := by decide
  omega

/-- Claim C8 counterexample: with a growth rate of 10000 bps the price is
not monotone — at supply 9 (nine fractional factors of 1.1) the price
exceeds the supply-10 price (one chunk factor of 2.0).  And with a
growth rate of `2^128 - 5001` the unchecked factor addition wraps to
4999, below the denominator, so the supply-10 price falls BELOW the
supply-0 base price — the price is not even componentwise monotone
there. -/
theorem claim8_counterexample :
    (9 : Nat) < 10 ∧
    price_at_supply 9 params_big_growth = .ok 2357946 ∧
    price_at_supply 10 params_big_growth = .ok 2000000 ∧
    ¬ (2357946 : Nat) ≤ 2000000 ∧
    price_at_supply 0 params_wrap_growth = .ok 1000000 ∧
    price_at_supply 10 params_wrap_growth = .ok 499900 ∧
    ¬ (1000000 : Nat) ≤ 499900 := by
  refine ⟨by decide, rfl, rfl, by decide, rfl, rfl, by decide⟩

/-- Witness for C8: the componentwise monotonicity applied at supplies 3
and 25 under the default parameters. -/
theorem claim8_witness :
    price_at_supply 3 default_curve_params = .ok 1045678 ∧ (1045678 : Nat) ≤ 1424706 := by
  obtain ⟨v1, hv1, hle⟩ :=
    (claim8_price_monotone_amended default_curve_params 3 25 1424706).2.1
      (by decide) (by decide) (by decide) rfl
  have hval : v1 = 1045678 := by
    have h2 : price_at_supply 3 default_curve_params = .ok 1045678 := rfl
    rw [h2] at hv1
    injection hv1 with h3
    omega
  subst hval
  exact ⟨hv1, hle⟩

/-- Claim C6 (amended): buy cost is 0 at quantity 0; when the supply-plus-
quantity sum itself overflows `u128` the failure is `arithmeticOverflow`
(the `checked_add` runs before the max-supply comparison), and
`exceedsMaxSupply` is returned exactly when the sum fits in `u128` but
exceeds `max_supply`; otherwise the cost is the trapezoidal estimate
`((price(s) + price(s+q)) / 2) * q` with overflow-checked arithmetic; and
scenario A evaluates to 1000750, between 1000000 and 2000000. -/
theorem claim6_buy_price_amended : ∀ (s q : Nat) (p : CurveParams),
    (calculate_buy_price s 0 p = .ok 0) ∧
    (q ≠ 0 → U128_MAX < s + q → calculate_buy_price s q p = .error .arithmeticOverflow) ∧
    (calculate_buy_price s q p = .error .exceedsMaxSupply ↔
      q ≠ 0 ∧ s + q ≤ U128_MAX ∧ p.max_supply < s + q) ∧
    (∀ sp ep, q ≠ 0 → s + q ≤ U128_MAX → s + q ≤ p.max_supply →
      price_at_supply s p = .ok sp → price_at_supply (s + q) p = .ok ep →
      sp + ep ≤ U128_MAX → ((sp + ep) / 2) * q ≤ U128_MAX →
      calculate_buy_price s q p = .ok (((sp + ep) / 2) * q)) ∧
    (calculate_buy_price 0 1 params_scenarioA = .ok 1000750 ∧
      (1000000 : Nat) ≤ 1000750 ∧ (1000750 : Nat) < 2000000) := by
  intro s q p
  refine ⟨rfl, ?_, ?_, ?_, rfl, by decide, by decide⟩
  · intro hq hov
    simp [calculate_buy_price, if_neg hq, if_pos hov]
  · constructor
    · intro h
      by_cases hq : q = 0
      · simp [calculate_buy_price, hq] at h
      · by_cases hov : U128_MAX < s + q
        · simp [calculate_buy_price, if_neg hq, if_pos hov] at h
        · by_cases hmax : p.max_supply < s + q
          · exact ⟨hq, by omega, hmax⟩
          · exfalso
            simp only [calculate_buy_price, if_neg hq, if_neg hov, if_neg hmax] at h
            split at h
            next e heq =>
              injection h with h2
              have he := price_at_supply_err _ _ _ heq
              subst h2
              simp at he
            next a e heq1 heq =>
              injection h with h2
              have he := price_at_supply_err _ _ _ heq
              subst h2
              simp at he
            next sp ep heq1 heq2 =>
              split at h
              · split at h <;> simp at h
              · simp at h
    · rintro ⟨hq, hle, hmax⟩
      simp [calculate_buy_price, if_neg hq, if_neg (by omega : ¬ U128_MAX < s + q),
        if_pos hmax]
  · intro sp ep hq hle hmax hp1 hp2 hs hm
    simp only [calculate_buy_price, if_neg hq, if_neg (by omega : ¬ U128_MAX < s + q),
      if_neg (by omega : ¬ p.max_supply < s + q), hp1, hp2, if_pos hs, if_pos hm]

/-- Claim C6 counterexample: at maximal supply with quantity 2, the sum
overflows `u128` so it certainly exceeds `max_supply`, yet the code
returns `arithmeticOverflow`, not the `exceedsMaxSupply` the claim
prescribes for every `s + q > max_supply`. -/
theorem claim6_counterexample :
    calculate_buy_price U128_MAX 2 default_curve_params = .error .arithmeticOverflow ∧
    default_curve_params.max_supply < U128_MAX + 2 ∧
    (Except.error .arithmeticOverflow : Except CurveError Nat) ≠
      .error .exceedsMaxSupply := by
  refine ⟨rfl, by decide, by simp⟩

/-- Witness for C6: the overflow branch of the amended theorem at the
counterexample input. -/
theorem claim6_witness :
    calculate_buy_price U128_MAX 2 default_curve_params = .error .arithmeticOverflow :=
  (claim6_buy_price_amended U128_MAX 2 default_curve_params).2.1 (by decide) (by decide)

/-- Claim C7: sell payout is 0 at quantity 0; `insufficientSupply` is
returned exactly when the quantity exceeds the supply (so selling exactly
the supply is never rejected for insufficiency while selling one more
always is); otherwise the payout is the trapezoidal average over
`[s - q, s]` discounted by 1% (`* 99 / 100` before multiplying by the
quantity), and relative to the symmetric buy cost over the same window
the payout is 0.99 of it within one integer-rounding unit per token:
`100 * sell ≤ 99 * buy < 100 * sell + 100 * q`. -/
theorem claim7_sell_price : ∀ (s q : Nat) (p : CurveParams),
    (calculate_sell_price s 0 p = .ok 0) ∧
    (calculate_sell_price s q p = .error .insufficientSupply ↔ s < q) ∧
    (∀ sp ep, q ≠ 0 → q ≤ s →
      price_at_supply (s - q) p = .ok sp → price_at_supply s p = .ok ep →
      sp + ep ≤ U128_MAX → ((sp + ep) / 2) * 99 ≤ U128_MAX →
      (((sp + ep) / 2) * 99 / 100) * q ≤ U128_MAX →
      (calculate_sell_price s q p = .ok ((((sp + ep) / 2) * 99 / 100) * q) ∧
       (s ≤ U128_MAX → s ≤ p.max_supply → ((sp + ep) / 2) * q ≤ U128_MAX →
         calculate_buy_price (s - q) q p = .ok (((sp + ep) / 2) * q) ∧
         100 * ((((sp + ep) / 2) * 99 / 100) * q) ≤ 99 * (((sp + ep) / 2) * q) ∧
         99 * (((sp + ep) / 2) * q) <
           100 * ((((sp + ep) / 2) * 99 / 100) * q) + 100 * q))) := by
  intro s q p
  refine ⟨rfl, ?_, ?_⟩
  · constructor
    · intro h
      by_cases hq : q = 0
      · simp [calculate_sell_price, hq] at h
      · by_cases hlt : s < q
        · exact hlt
        · exfalso
          simp only [calculate_sell_price, if_neg hq, if_neg hlt] at h
          split at h
          next e heq =>
            injection h with h2
            have he := price_at_supply_err _ _ _ heq
            subst h2
            simp at he
          next a e heq1 heq =>
            injection h with h2
            have he := price_at_supply_err _ _ _ heq
            subst h2
            simp at he
          next sp ep heq1 heq2 =>
            split at h
            · split at h
              · split at h <;> simp at h
              · simp at h
            · simp at h
    · intro hlt
      have hq : q ≠ 0 := by omega
      simp [calculate_sell_price, if_neg hq, if_pos hlt]
  · intro sp ep hq hqs hp1 hp2 hs h99 hm
    have hsell : calculate_sell_price s q p = .ok ((((sp + ep) / 2) * 99 / 100) * q) := by
      simp only [calculate_sell_price, if_neg hq, if_neg (by omega : ¬ s < q),
        hp1, hp2, if_pos hs, if_pos h99, if_pos hm]
    refine ⟨hsell, ?_⟩
    intro hsle hsmax hbm
    have hsq : s - q + q = s := by omega
    have hbuy : calculate_buy_price (s - q) q p = .ok (((sp + ep) / 2) * q) := by
      simp only [calculate_buy_price, if_neg hq, hsq,
        if_neg (by omega : ¬ U128_MAX < s), if_neg (by omega : ¬ p.max_supply < s),
        hp1, hp2, if_pos hs, if_pos hbm]
    refine ⟨hbuy, ?_, ?_⟩
    · have h1 : ((sp + ep) / 2) * 99 / 100 * 100 ≤ (sp + ep) / 2 * 99 :=
        Nat.div_mul_le_self _ _
      have g1 : 100 * ((((sp + ep) / 2) * 99 / 100) * q) =
          ((((sp + ep) / 2) * 99 / 100) * 100) * q := by ring
      have g2 : 99 * (((sp + ep) / 2) * q) = (((sp + ep) / 2) * 99) * q := by ring
      rw [g1, g2]
      exact Nat.mul_le_mul_right q h1
    · have h2 : ((sp + ep) / 2) * 99 < (((sp + ep) / 2) * 99 / 100) * 100 + 100 := by
        have hdm := Nat.div_add_mod (((sp + ep) / 2) * 99) 100
        have hmod : (((sp + ep) / 2) * 99) % 100 < 100 :=
          Nat.mod_lt _ (by norm_num)
        omega
      have g2 : 99 * (((sp + ep) / 2) * q) = (((sp + ep) / 2) * 99) * q := by ring
      have g3 : 100 * ((((sp + ep) / 2) * 99 / 100) * q) + 100 * q =
          ((((sp + ep) / 2) * 99 / 100) * 100 + 100) * q := by ring
      rw [g2, g3]
      exact Nat.mul_lt_mul_of_lt_of_le h2 (le_refl q) (Nat.pos_of_ne_zero hq)

/-- Witness for C7: selling 5 of 10 under the default parameters pays
5512520, while buying the same window costs 5568205; the spread bounds
hold concretely. -/
theorem claim7_witness :
    calculate_sell_price 10 5 default_curve_params = .ok 5512520 ∧
    calculate_buy_price 5 5 default_curve_params = .ok 5568205 ∧
    100 * 5512520 ≤ 99 * 5568205 ∧ 99 * 5568205 < 100 * 5512520 + 100 * 5 := by
  have h := (claim7_sell_price 10 5 default_curve_params).2.2 1077283 1150000
    (by decide) (by decide) rfl rfl (by decide) (by decide) (by decide)
  obtain ⟨h1, h2⟩ := h
  obtain ⟨h3, h4, h5⟩ := h2 (by decide) (by decide) (by decide)
  exact ⟨h1, h3, h4, h5⟩

/-- A saturating percentage (at most 100) of a quantity never exceeds it. -/
theorem sat_pct_le (t k : Nat) (hk : k ≤ 100) : saturating_mul t k / 100 ≤ t := by
  have h1 : saturating_mul t k ≤ t * k := min_le_left _ _
  have h2 : t * k ≤ t * 100 := Nat.mul_le_mul_left t hk
  have h3 : saturating_mul t k / 100 ≤ t * 100 / 100 := Nat.div_le_div_right (by omega)
  simpa using h3

/-- Claim C2 (amended): the pool seed uses all reserves as the base leg,
and the token leg is `min(reserves * 10^9 / price, token_supply * 50%)` —
the cap is 50% of the CURRENT token supply at graduation, not 50% of
`max_supply` as the claim stated; consequently the token leg never
exceeds half the current supply (and hence half of `max_supply` whenever
the supply respects `max_supply`). -/
theorem claim2_pool_ratios_amended : ∀ (s r : Nat) (p : CurveParams) (tl bl : Nat),
    calculate_pool_ratios s r p = .ok (tl, bl) →
    bl = r ∧
    tl = min (saturating_mul r 1000000000 / price_or_base s p)
             (saturating_mul s 50 / 100) ∧
    tl ≤ saturating_mul s 50 / 100 ∧
    (2 * tl ≤ s) := by
  intro s r p tl bl h
  simp only [calculate_pool_ratios, Except.ok.injEq, Prod.mk.injEq] at h
  obtain ⟨htl, hbl⟩ := h
  subst htl
  subst hbl
  refine ⟨rfl, rfl, min_le_right _ _, ?_⟩
  have h1 : min (saturating_mul r 1000000000 / price_or_base s p)
      (saturating_mul s 50 / 100) ≤ saturating_mul s 50 / 100 := min_le_right _ _
  have h2 : saturating_mul s 50 / 100 ≤ s * 50 / 100 :=
    Nat.div_le_div_right (min_le_left _ _)
  omega

/-- Claim C2 counterexample: with spot price 10^9, 100 reserves and
current supply 10 under `params_pool_demo` (max supply 1000), the code
returns a token leg of 5 — capped at 50% of the current supply — while
the claim's formula `min(r * 10^9 / price, max_supply * 50%)
= min(100, 500)` prescribes 100. -/
theorem claim2_counterexample :
    calculate_pool_ratios 10 100 params_pool_demo = .ok (5, 100) ∧
    price_at_supply 10 params_pool_demo = .ok 1000000000 ∧
    min (100 * 1000000000 / 1000000000) (params_pool_demo.max_supply * 50 / 100) = 100 ∧
    (5 : Nat) ≠ 100 :=
  ⟨rfl, rfl, by decide, by decide⟩

/-- Witness for C2: the amended theorem applied at the demo input. -/
theorem claim2_witness : (2 * 5 ≤ 10) ∧ ((100 : Nat) = 100) := by
  have h := claim2_pool_ratios_amended 10 100 params_pool_demo 5 100 rfl
  exact ⟨h.2.2.2, h.1⟩

/-- Claim C3 (amended): the LP total is the integer square root of the
product of the two liquidity legs each truncated to 64 bits and
multiplied with 64-bit saturation — not of the exact 256-bit product (the
source computes the root through `f64`, modelled here as `Nat.sqrt`).
The strategies split that total as: BurnAll burns 100%; CommunityRewards
burns 80% and routes 20% to the top holders, which are always the empty
set in this code, so the whole 20% falls back to being burned;
DAOGovernance burns 80% and pays 20% to the DAO address; but
CreatorAllocation NEVER completes — the creator lookup always fails (the
source parses an 8-byte slice into a 16-byte array), with
`creatorNotFound` on an empty creator cell and `invalidCreatorData`
(`Invalid block`) on a stored one — so no distribution ever pays a
creator, and in every successful case the ledger sums to the total with
zero paid to the creator. -/
theorem claim3_lp_distribution_amended : ∀ (st : CurveState) (tl bl : Nat)
    (strat : LPDistributionStrategy) (o : LPOutcome),
    (distribute_lp_tokens st tl bl strat = .ok o →
      (calculate_lp_tokens tl bl = Nat.sqrt (lp_product tl bl)) ∧
      (o.burned + o.holders_paid + o.creator_paid + o.dao_paid =
        calculate_lp_tokens tl bl) ∧
      (strat = .BurnAll → o = ⟨calculate_lp_tokens tl bl, 0, 0, 0⟩) ∧
      (strat = .CommunityRewards →
        o.burned = calculate_lp_tokens tl bl ∧ o.holders_paid = 0) ∧
      (o.creator_paid = 0 ∧ strat ≠ .CreatorAllocation) ∧
      (strat = .DAOGovernance →
        o.burned = saturating_mul (calculate_lp_tokens tl bl) 80 / 100 ∧
        o.dao_paid = calculate_lp_tokens tl bl - o.burned)) ∧
    (distribute_lp_tokens st tl bl .CreatorAllocation =
      .error (match st.creator with
              | none => .creatorNotFound
              | some _ => .invalidCreatorData)) := by
  intro st tl bl strat o
  have h80 : saturating_mul (calculate_lp_tokens tl bl) 80 / 100 ≤
      calculate_lp_tokens tl bl := sat_pct_le _ _ (by norm_num)
  constructor
  · intro h
    cases strat with
    | BurnAll =>
      simp only [distribute_lp_tokens, Except.ok.injEq] at h
      subst h
      exact ⟨rfl, by simp, fun _ => rfl, by simp, by simp, by simp⟩
    | CommunityRewards =>
      simp only [distribute_lp_tokens, distribute_to_top_holders, get_top_holders,
        List.isEmpty_nil, if_pos, Except.ok.injEq] at h
      subst h
      refine ⟨rfl, by simp; omega, by simp, fun _ => ⟨by simp; omega, rfl⟩, by simp, by simp⟩
    | CreatorAllocation =>
      exfalso
      simp only [distribute_lp_tokens] at h
      cases hc : st.creator with
      | none => rw [get_token_creator, hc] at h; exact absurd h (by simp)
      | some c => rw [get_token_creator, hc] at h; exact absurd h (by simp)
    | DAOGovernance =>
      simp only [distribute_lp_tokens, get_dao_address, Except.ok.injEq] at h
      subst h
      exact ⟨rfl, by simp; omega, by simp, by simp, by simp, fun _ => ⟨rfl, rfl⟩⟩
  · cases hc : st.creator with
    | none => rw [distribute_lp_tokens, get_token_creator, hc]
    | some c => rw [distribute_lp_tokens, get_token_creator, hc]

/-- Claim C3 counterexample: with liquidity legs `2^64 + 4` and 9 the
exact product is `9 * 2^64 + 36`, whose integer square root is
12884901888, but the code truncates each leg to 64 bits first
(`(2^64 + 4) as u64 = 4`), so its product is 36 and the LP total is 6 —
the claimed `isqrt` of the exact 256-bit product is off by nine orders of
magnitude.  (At this input the `f64` square root of 36 is exactly 6, so
the integer-sqrt model agrees with the source bit for bit.) -/
theorem claim3_counterexample :
    calculate_lp_tokens (2 ^ 64 + 4) 9 = 6 ∧
    Nat.sqrt ((2 ^ 64 + 4) * 9) = 12884901888 ∧
    (6 : Nat) ≠ 12884901888 := by
  refine ⟨?_, ?_, by decide⟩
  · have h36 : lp_product (2 ^ 64 + 4) 9 = 36 := by decide
    simp only [calculate_lp_tokens]
    rw [h36]
    exact sqrt_eq_of 36 6 (by decide) (by decide)
  · exact sqrt_eq_of _ 12884901888 (by decide) (by decide)

/-- Witness for C3: the amended theorem applied to a successful
DAOGovernance distribution, plus its unconditional CreatorAllocation
failure at a state with a STORED creator (the `Invalid block` path of the
source). -/
theorem claim3_witness :
    calculate_lp_tokens 2 5 = Nat.sqrt (lp_product 2 5) ∧
    distribute_lp_tokens { empty_state with creator := some ⟨1, 1⟩ } 2 5
      .CreatorAllocation = .error .invalidCreatorData := by
  have h := claim3_lp_distribution_amended { empty_state with creator := some ⟨1, 1⟩ } 2 5
    .DAOGovernance
    ⟨saturating_mul (calculate_lp_tokens 2 5) 80 / 100, 0, 0,
      calculate_lp_tokens 2 5 - saturating_mul (calculate_lp_tokens 2 5) 80 / 100⟩
  exact ⟨(h.1 rfl).1, h.2⟩

/-- Claim C4 (amended): initialization is NOT guarded — with a valid
base-token selector and strategy selector it always succeeds, never
returning an already-initialized error (no such error exists in the
code), and it overwrites the stored parameters, metadata, strategy byte
and creator, resetting both reserve cells to zero — even when the curve
was already initialized. -/
theorem claim4_reinit_amended : ∀ (st : CurveState) (m : AlkaneId) (a : InitArgs),
    a.base_token_type ≤ 1 → a.lp_distribution_strategy ≤ 3 →
    (init_curve st m a).1 = .ok () ∧
    (init_curve st m a).2.params_stored =
      some { base_price := a.base_price, growth_rate := a.growth_rate,
             graduation_threshold := a.graduation_threshold,
             base_token := if a.base_token_type = 0 then .BUSD else .FrBtc,
             max_supply := a.max_supply } ∧
    (init_curve st m a).2.base_reserves = 0 ∧
    (init_curve st m a).2.creator = some m := by
  intro st m a hbt hlp
  have hlp2 : ¬ 3 < a.lp_distribution_strategy := by omega
  have hcase : a.base_token_type = 0 ∨ a.base_token_type = 1 := by omega
  rcases hcase with h0 | h1
  · simp [init_curve, h0, hlp2]
  · simp [init_curve, h1, hlp2]

/-- Claim C4 counterexample: initializing twice succeeds both times and
the second call replaces the stored parameters — the claimed
`AlreadyInitialized` failure and parameter immutability do not exist. -/
theorem claim4_counterexample :
    (init_curve empty_state ⟨1, 1⟩ init_args_a).1 = .ok () ∧
    (init_curve (init_curve empty_state ⟨1, 1⟩ init_args_a).2 ⟨1, 1⟩ init_args_b).1 =
      .ok () ∧
    (init_curve (init_curve empty_state ⟨1, 1⟩ init_args_a).2 ⟨1, 1⟩
        init_args_b).2.params_stored ≠
      (init_curve empty_state ⟨1, 1⟩ init_args_a).2.params_stored := by
  refine ⟨rfl, rfl, by decide⟩

/-- Witness for C4: the amended theorem applied to a fresh state. -/
theorem claim4_witness :
    (init_curve empty_state ⟨1, 1⟩ init_args_a).1 = .ok () ∧
    (init_curve empty_state ⟨1, 1⟩ init_args_a).2.creator = some ⟨1, 1⟩ := by
  have h := claim4_reinit_amended empty_state ⟨1, 1⟩ init_args_a (by decide) (by decide)
  exact ⟨h.1, h.2.2.2⟩

/-- LP distribution can only fail on the creator lookup of
CreatorAllocation: `creatorNotFound` when the creator cell is empty,
`invalidCreatorData` when a creator is stored (the lookup never
succeeds); every other strategy path is total. -/
theorem distribute_lp_err : ∀ (st : CurveState) (tl bl : Nat)
    (strat : LPDistributionStrategy) (e : CurveError),
    distribute_lp_tokens st tl bl strat = .error e →
    e = .creatorNotFound ∨ e = .invalidCreatorData := by
  intro st tl bl strat e h
  cases strat with
  | BurnAll => simp [distribute_lp_tokens] at h
  | CommunityRewards =>
    simp [distribute_lp_tokens, distribute_to_top_holders, get_top_holders] at h
  | CreatorAllocation =>
    simp only [distribute_lp_tokens] at h
    cases hc : st.creator with
    | none =>
      rw [get_token_creator, hc] at h
      injection h with h2
      exact Or.inl h2.symm
    | some c =>
      rw [get_token_creator, hc] at h
      injection h with h2
      exact Or.inr h2.symm
  | DAOGovernance =>
    simp [distribute_lp_tokens, get_dao_address] at h

/-- Unfolding of a graduation that passes the guard, the criteria and the
pool verification: everything now hinges on the LP distribution, with the
durable writes (`persisted_state`) already applied. -/
theorem graduate_eq (st : CurveState) (m : AlkaneId) (n : Nat)
    (hgrad : st.graduated = false)
    (hcrit : check_graduation_criteria n st.base_reserves (get_curve_params st) = true)
    (hver : verify_pool_exists (graduation_pool st m) = true) :
    graduate_to_amm st m n =
      match distribute_lp_tokens (persisted_state st m)
          (min (saturating_mul st.base_reserves 1000000000 /
                price_or_base n (get_curve_params st))
               (saturating_mul n 50 / 100))
          st.base_reserves
          (get_lp_distribution_strategy (persisted_state st m)) with
      | .error e => (.error e, persisted_state st m)
      | .ok _ => (.ok (graduation_pool st m), persisted_state st m) := by
  simp only [graduate_to_amm, hgrad, Bool.false_eq_true, if_false, hcrit, not_true,
    calculate_pool_ratios]
  rw [show generate_pool_address OYL_FACTORY_PROXY m
        (get_curve_params st).base_token.alkane_id = graduation_pool st m from rfl]
  simp only [hver, not_true, if_false, persisted_state]

/-- Claim C1 (amended): graduation failures at the guard, the criteria
check or the pool-handle verification leave the state untouched; but the
durable writes (graduated flag, pool handle, graduation block) are
persisted BEFORE LP distribution, so a distribution failure returns an
error with the graduated flag and pool handle already committed — and
the CreatorAllocation strategy ALWAYS fails there (`creatorNotFound` on
an empty creator cell, `invalidCreatorData` on a stored one, since the
source's creator lookup can never succeed); a successful run commits
exactly those writes.  The only errors are the three pre-persist
failures plus the two post-persist distribution failures. -/
theorem claim1_graduate_persist_amended : ∀ (st : CurveState) (m : AlkaneId) (n : Nat),
    ((graduate_to_amm st m n).1 = .error .alreadyGraduated ∨
     (graduate_to_amm st m n).1 = .error .graduationCriteriaNotMet ∨
     (graduate_to_amm st m n).1 = .error .poolCreationFailed →
       (graduate_to_amm st m n).2 = st) ∧
    (∀ e, (graduate_to_amm st m n).1 = .error e →
       e = .alreadyGraduated ∨ e = .graduationCriteriaNotMet ∨
       e = .poolCreationFailed ∨ e = .creatorNotFound ∨ e = .invalidCreatorData) ∧
    ((graduate_to_amm st m n).1 = .error .creatorNotFound ∨
     (graduate_to_amm st m n).1 = .error .invalidCreatorData →
       (graduate_to_amm st m n).2.graduated = true ∧
       (graduate_to_amm st m n).2.pool_address = some (graduation_pool st m) ∧
       (graduate_to_amm st m n).2.graduation_block = some 0) ∧
    (∀ pa, (graduate_to_amm st m n).1 = .ok pa →
       (graduate_to_amm st m n).2.graduated = true ∧
       (graduate_to_amm st m n).2.pool_address = some pa) := by
  intro st m n
  by_cases hgrad : st.graduated
  · have hg : graduate_to_amm st m n = (.error .alreadyGraduated, st) := by
      simp [graduate_to_amm, hgrad]
    rw [hg]
    refine ⟨fun _ => rfl, ?_, ?_, ?_⟩
    · intro e he
      injection he with h2
      subst h2
      exact Or.inl rfl
    · rintro (he | he) <;> exact absurd he (by simp)
    · intro pa hpa
      exact absurd hpa (by simp)
  · rw [Bool.not_eq_true] at hgrad
    cases hcrit : check_graduation_criteria n st.base_reserves (get_curve_params st) with
    | false =>
      have hg : graduate_to_amm st m n = (.error .graduationCriteriaNotMet, st) := by
        simp [graduate_to_amm, hgrad, hcrit]
      rw [hg]
      refine ⟨fun _ => rfl, ?_, ?_, ?_⟩
      · intro e he
        injection he with h2
        subst h2
        exact Or.inr (Or.inl rfl)
      · rintro (he | he) <;> exact absurd he (by simp)
      · intro pa hpa
        exact absurd hpa (by simp)
    | true =>
      cases hver : verify_pool_exists (graduation_pool st m) with
      | false =>
        have hg : graduate_to_amm st m n = (.error .poolCreationFailed, st) := by
          simp only [graduate_to_amm, hgrad, Bool.false_eq_true, if_false, hcrit,
            not_true, calculate_pool_ratios]
          rw [show generate_pool_address OYL_FACTORY_PROXY m
                (get_curve_params st).base_token.alkane_id = graduation_pool st m from rfl]
          simp [hver]
        rw [hg]
        refine ⟨fun _ => rfl, ?_, ?_, ?_⟩
        · intro e he
          injection he with h2
          subst h2
          exact Or.inr (Or.inr (Or.inl rfl))
        · rintro (he | he) <;> exact absurd he (by simp)
        · intro pa hpa
          exact absurd hpa (by simp)
      | true =>
        rw [graduate_eq st m n hgrad hcrit hver]
        cases hd : distribute_lp_tokens (persisted_state st m)
            (min (saturating_mul st.base_reserves 1000000000 /
                  price_or_base n (get_curve_params st))
                 (saturating_mul n 50 / 100))
            st.base_reserves
            (get_lp_distribution_strategy (persisted_state st m)) with
        | error e =>
          refine ⟨?_, ?_, ?_, ?_⟩
          · intro he
            exfalso
            rcases distribute_lp_err _ _ _ _ _ hd with h4 | h4 <;> subst h4 <;>
              (rcases he with h | h | h <;> (injection h with h3; exact absurd h3 (by simp)))
          · intro e2 he2
            injection he2 with h3
            subst h3
            exact Or.inr (Or.inr (Or.inr (distribute_lp_err _ _ _ _ _ hd)))
          · intro _
            exact ⟨rfl, rfl, rfl⟩
          · intro pa hpa
            exact absurd hpa (by simp)
        | ok o =>
          refine ⟨?_, ?_, ?_, ?_⟩
          · intro he
            exact absurd he (by simp)
          · intro e2 he2
            exact absurd he2 (by simp)
          · rintro (he | he) <;> exact absurd he (by simp)
          · intro pa hpa
            injection hpa with h3
            subst h3
            exact ⟨rfl, rfl⟩

/-- Claim C1 counterexample: a curve meeting the reserve criterion, with
LP strategy byte 2 (CreatorAllocation) and no stored creator — the
graduation returns an error from the LP-distribution step, yet the
returned state already has the graduated flag set and the pool handle
stored: the durable write happened before LP distribution succeeded, so a
failing invocation does mutate state. -/
theorem claim1_counterexample :
    state_creatorless.graduated = false ∧
    (graduate_to_amm state_creatorless ⟨1, 1⟩ 5).1 = .error .creatorNotFound ∧
    (graduate_to_amm state_creatorless ⟨1, 1⟩ 5).2.graduated = true ∧
    (graduate_to_amm state_creatorless ⟨1, 1⟩ 5).2.pool_address = some ⟨7, 983636⟩ :=
  ⟨rfl, rfl, rfl, rfl⟩

/-- Witness for C1: the amended theorem applied to the counterexample
state — the distribution failure surfaces with the flag already set. -/
theorem claim1_witness :
    (graduate_to_amm state_creatorless ⟨1, 1⟩ 5).2.graduated = true ∧
    (graduate_to_amm state_creatorless ⟨1, 1⟩ 5).2.pool_address =
      some (graduation_pool state_creatorless ⟨1, 1⟩) := by
  have h := (claim1_graduate_persist_amended state_creatorless ⟨1, 1⟩ 5).2.2.1 (Or.inl rfl)
  exact ⟨h.1, h.2.1⟩

/-- The code's criteria check agrees with the claimed disjunction: market
cap at least the threshold, or reserves at least half of it.  (The code
saturates the market-cap product and treats a failed price as 0; when the
price succeeds and the threshold is a valid `u128`, that coincides with
the plain product comparison.) -/
theorem check_graduation_criteria_iff (n r : Nat) (p : CurveParams) (v : Nat)
    (hv : price_at_supply n p = .ok v) (hthr : p.graduation_threshold ≤ U128_MAX) :
    (check_graduation_criteria n r p = true ↔
      (p.graduation_threshold ≤ n * v ∨ p.graduation_threshold / 2 ≤ r)) := by
  simp only [check_graduation_criteria, price_or_zero, hv, saturating_mul]
  by_cases h1 : p.graduation_threshold ≤ min (n * v) U128_MAX
  · simp only [h1, if_pos]
    have : p.graduation_threshold ≤ n * v := le_trans h1 (min_le_left _ _)
    simp [this]
  · have h2 : ¬ p.graduation_threshold ≤ n * v := fun hc => h1 (le_min hc hthr)
    simp only [h1, if_neg, if_false]
    by_cases h3 : p.graduation_threshold / 2 ≤ r <;> simp [h2, h3]

/-- Within an ungraduated state, the graduation call fails with
`graduationCriteriaNotMet` exactly when the criteria check is false. -/
theorem graduate_gcnm_iff (st : CurveState) (m : AlkaneId) (n : Nat)
    (hgrad : st.graduated = false) :
    ((graduate_to_amm st m n).1 = .error .graduationCriteriaNotMet ↔
      check_graduation_criteria n st.base_reserves (get_curve_params st) = false) := by
  cases hcrit : check_graduation_criteria n st.base_reserves (get_curve_params st) with
  | false =>
    have hg : graduate_to_amm st m n = (.error .graduationCriteriaNotMet, st) := by
      simp [graduate_to_amm, hgrad, hcrit]
    rw [hg]
    simp
  | true =>
    simp only [Bool.true_eq_false, iff_false]
    cases hver : verify_pool_exists (graduation_pool st m) with
    | false =>
      have hg : graduate_to_amm st m n = (.error .poolCreationFailed, st) := by
        simp only [graduate_to_amm, hgrad, Bool.false_eq_true, if_false, hcrit,
          not_true, calculate_pool_ratios]
        rw [show generate_pool_address OYL_FACTORY_PROXY m
              (get_curve_params st).base_token.alkane_id = graduation_pool st m from rfl]
        simp [hver]
      rw [hg]
      simp
    | true =>
      rw [graduate_eq st m n hgrad hcrit hver]
      cases hd : distribute_lp_tokens (persisted_state st m)
          (min (saturating_mul st.base_reserves 1000000000 /
                price_or_base n (get_curve_params st))
               (saturating_mul n 50 / 100))
          st.base_reserves
          (get_lp_distribution_strategy (persisted_state st m)) with
      | error e =>
        intro hc
        injection hc with h2
        have := distribute_lp_err _ _ _ _ _ hd
        subst h2
        simp at this
      | ok o =>
        intro hc
        exact absurd hc (by simp)

/-- Initialization never touches the graduated flag. -/
theorem init_preserves_graduated (st : CurveState) (m : AlkaneId) (a : InitArgs) :
    (init_curve st m a).2.graduated = st.graduated := by
  unfold init_curve
  split <;> (try split) <;> rfl

/-- Claim C9: the graduation guard and terminality.  A graduated curve
rejects Graduate, Buy and Sell with `alreadyGraduated` (leaving the state
unchanged); an ungraduated curve fails Graduate with
`graduationCriteriaNotMet` precisely unless the market cap reaches the
threshold or the reserves reach half of it (either alone suffices); and
no operation — buy, sell, graduate or re-initialization — ever clears the
graduated flag. -/
theorem claim9_graduation_guard : ∀ (st : CurveState) (m : AlkaneId) (n : Nat)
    (inc : List AlkaneTransfer) (minOut amt minB : Nat) (a : InitArgs) (v : Nat),
    (st.graduated = true →
      buy_tokens st m inc minOut = (.error .alreadyGraduated, st) ∧
      sell_tokens st amt minB = (.error .alreadyGraduated, st) ∧
      graduate_to_amm st m n = (.error .alreadyGraduated, st)) ∧
    (st.graduated = false → price_at_supply n (get_curve_params st) = .ok v →
      (get_curve_params st).graduation_threshold ≤ U128_MAX →
      ((graduate_to_amm st m n).1 = .error .graduationCriteriaNotMet ↔
        ¬ ((get_curve_params st).graduation_threshold ≤ n * v ∨
           (get_curve_params st).graduation_threshold / 2 ≤ st.base_reserves))) ∧
    (st.graduated = true →
      (buy_tokens st m inc minOut).2.graduated = true ∧
      (sell_tokens st amt minB).2.graduated = true ∧
      (graduate_to_amm st m n).2.graduated = true ∧
      (init_curve st m a).2.graduated = true) := by
  intro st m n inc minOut amt minB a v
  refine ⟨?_, ?_, ?_⟩
  · intro hgrad
    exact ⟨by simp [buy_tokens, hgrad], by simp [sell_tokens, hgrad],
      by simp [graduate_to_amm, hgrad]⟩
  · intro hgrad hv hthr
    rw [graduate_gcnm_iff st m n hgrad]
    rw [← check_graduation_criteria_iff n st.base_reserves (get_curve_params st) v hv hthr]
    cases check_graduation_criteria n st.base_reserves (get_curve_params st) <;> simp
  · intro hgrad
    refine ⟨?_, ?_, ?_, ?_⟩
    · simp [buy_tokens, hgrad]
    · simp [sell_tokens, hgrad]
    · simp [graduate_to_amm, hgrad]
    · rw [init_preserves_graduated]
      exact hgrad

/-- Witness for C9: the guard at a graduated state, and the criteria
failure at an ungraduated zero-reserve curve whose threshold is 6 (market
cap 1, reserves 0: neither criterion holds). -/
theorem claim9_witness :
    buy_tokens state_graduated ⟨1, 1⟩ [] 0 = (.error .alreadyGraduated, state_graduated) ∧
    (graduate_to_amm state_nocrit ⟨1, 1⟩ 1).1 = .error .graduationCriteriaNotMet := by
  have h1 := (claim9_graduation_guard state_graduated ⟨1, 1⟩ 0 [] 0 0 0 init_args_a 0).1 rfl
  have h2 := (claim9_graduation_guard state_nocrit ⟨1, 1⟩ 1 [] 0 0 0 init_args_a 1).2.1
    rfl rfl (by decide)
  exact ⟨h1.1, h2.mpr (by decide)⟩

/-- Graduation never touches the token supply or the base reserves. -/
theorem graduate_preserves_ledger (st : CurveState) (m : AlkaneId) (n : Nat) :
    (graduate_to_amm st m n).2.total_supply = st.total_supply ∧
    (graduate_to_amm st m n).2.base_reserves = st.base_reserves := by
  by_cases hgrad : st.graduated
  · simp [graduate_to_amm, hgrad]
  · rw [Bool.not_eq_true] at hgrad
    cases hcrit : check_graduation_criteria n st.base_reserves (get_curve_params st) with
    | false => simp [graduate_to_amm, hgrad, hcrit]
    | true =>
      cases hver : verify_pool_exists (graduation_pool st m) with
      | false =>
        have hg : graduate_to_amm st m n = (.error .poolCreationFailed, st) := by
          simp only [graduate_to_amm, hgrad, Bool.false_eq_true, if_false, hcrit,
            not_true, calculate_pool_ratios]
          rw [show generate_pool_address OYL_FACTORY_PROXY m
                (get_curve_params st).base_token.alkane_id = graduation_pool st m from rfl]
          simp [hver]
        rw [hg]
        exact ⟨rfl, rfl⟩
      | true =>
        rw [graduate_eq st m n hgrad hcrit hver]
        split <;> simp [persisted_state]

/-- Claim C10: once a buy has passed its own checks (base input present,
quantity computed, slippage and mint-overflow guards), its result is
success with the minted quantity, the supply increased by it and the
reserves increased by the payment — the automatically attempted
graduation's result is discarded, so this holds whether that graduation
succeeds, fails, or is not attempted at all; the buyer never observes a
graduation error. -/
theorem claim10_buy_discards_graduation : ∀ (st : CurveState) (m : AlkaneId)
    (inc : List AlkaneTransfer) (minOut q : Nat) (tr : AlkaneTransfer),
    st.graduated = false →
    inc.find? (fun t => decide (t.id = (get_curve_params st).base_token.alkane_id)) =
      some tr →
    calculate_tokens_for_base_amount st.total_supply tr.value (get_curve_params st) =
      .ok q →
    minOut ≤ q →
    st.total_supply + q ≤ U128_MAX →
    (buy_tokens st m inc minOut).1 = .ok q ∧
    (buy_tokens st m inc minOut).2.total_supply = st.total_supply + q ∧
    (buy_tokens st m inc minOut).2.base_reserves = st.base_reserves + tr.value := by
  intro st m inc minOut q tr hgrad hfind hcalc hslip hov
  simp only [buy_tokens, hgrad, Bool.false_eq_true, if_false, hfind, hcalc,
    if_neg (by omega : ¬ q < minOut), if_neg (by omega : ¬ U128_MAX < st.total_supply + q)]
  split
  · refine ⟨rfl, ?_, ?_⟩
    · rw [(graduate_preserves_ledger _ m _).1]
    · rw [(graduate_preserves_ledger _ m _).2]
  · exact ⟨rfl, rfl, rfl⟩

/-- Witness for C10: buying 5 unit-price tokens triggers the graduation
check (reserves 5 meet the half-threshold 3); the triggered graduation
runs and FAILS during LP distribution (CreatorAllocation with no stored
creator) — yet the buy returns success with tokens minted and reserves
updated, and the discarded graduation's partial writes (graduated flag)
are visible in the post-state. -/
theorem claim10_witness :
    (buy_tokens state_fresh_buy ⟨1, 1⟩ [⟨⟨2, 56801⟩, 5⟩] 0).1 = .ok 5 ∧
    (buy_tokens state_fresh_buy ⟨1, 1⟩ [⟨⟨2, 56801⟩, 5⟩] 0).2.total_supply = 5 ∧
    (buy_tokens state_fresh_buy ⟨1, 1⟩ [⟨⟨2, 56801⟩, 5⟩] 0).2.base_reserves = 5 ∧
    (graduate_to_amm { state_fresh_buy with total_supply := 5, base_reserves := 5 }
        ⟨1, 1⟩ 5).1 = .error .creatorNotFound ∧
    (buy_tokens state_fresh_buy ⟨1, 1⟩ [⟨⟨2, 56801⟩, 5⟩] 0).2.graduated = true := by
  have h := claim10_buy_discards_graduation state_fresh_buy ⟨1, 1⟩ [⟨⟨2, 56801⟩, 5⟩] 0 5
    ⟨⟨2, 56801⟩, 5⟩ rfl rfl rfl (by decide) (by decide)
  exact ⟨h.1, h.2.1, h.2.2, rfl, rfl⟩

end BondingCurveFactory

